import Mathlib

/-!
Shallow embedding of the SuperLU easyblock
(src/easybuild/easyblocks/s/superlu.py, class EB_SuperLU) and proofs of the
specified properties of its lifecycle hooks.

The easyblock is a plugin driven by the EasyBuild framework.  The embedding
models the build configuration mapping, the toolchain, the environment probe
(get_software_root), the filesystem and the OS symlink call explicitly; the
generic delegated steps (CMakeMake.configure_step, install_step, the base
sanity_check_step) belong to the host framework and are outside src/, so the
generic sanity check is modelled from the spec where a claim needs it.
-/

namespace SuperLU

/-- The build configuration mapping owned by the driver (self.cfg in the
source).  The keys this easyblock touches are explicit fields; every other
key of the mapping is collected in `rest`. -/
structure BuildCfg where
  separate_build_dir : Bool
  configopts : List String
  build_shared_libs : Bool
  version : String
  runtest : Option String
  rest : String → Option String

/-- self.cfg.update(key, opt) for the accumulating key configopts: appends
one configure option to the accumulated list. -/
def BuildCfg.updateConfigopts (cfg : BuildCfg) (opt : String) : BuildCfg :=
  { cfg with configopts := cfg.configopts ++ [opt] }

/-- The toolchain object; only the pic option is read by this easyblock
(self.toolchain.options at key pic). -/
structure Toolchain where
  pic : Bool

/-- The module environment: get_software_root maps a software name to its
installed root path, or none when it is not present. -/
structure Env where
  getSoftwareRoot : String → Option String

/-- EB_SuperLU.configure_step, up to the delegation to the generic CMake
configure step (the super call receives the returned configuration). -/
def configure_step (tc : Toolchain) (env : Env) (cfg : BuildCfg) : BuildCfg :=
  let cfg1 := { cfg with separate_build_dir := true }
  let cfg2 :=
    if cfg1.build_shared_libs then
      cfg1.updateConfigopts "-DBUILD_SHARED_LIBS=ON"
    else
      cfg1.updateConfigopts "-DBUILD_SHARED_LIBS=OFF"
  let cfg3 :=
    if tc.pic then
      cfg2.updateConfigopts "-DCMAKE_POSITION_INDEPENDENT_CODE=ON"
    else
      cfg2.updateConfigopts "-DCMAKE_POSITION_INDEPENDENT_CODE=OFF"
  let cfg4 := cfg3.updateConfigopts "-Denable_blaslib=OFF"
  if (env.getSoftwareRoot "imkl").isSome then
    cfg4.updateConfigopts "-DBLA_VENDOR=\"Intel10_64lp\""
  else if (env.getSoftwareRoot "ACML").isSome then
    cfg4.updateConfigopts "-DBLA_VENDOR=\"ACML\""
  else if (env.getSoftwareRoot "ATLAS").isSome then
    cfg4.updateConfigopts "-DBLA_VENDOR=\"ATLAS\""
  else if (env.getSoftwareRoot "OpenBLAS").isSome then
    cfg4.updateConfigopts "-DBLAS_LIBRARIES=\"$\x7bEBROOTOPENBLAS\x7d/lib/libopenblas.a;-pthread\""
  else
    cfg4.updateConfigopts "-DBLA_VENDOR=\"All\""

/-- EB_SuperLU.test_step, up to the delegation to the generic test step. -/
def test_step (cfg : BuildCfg) : BuildCfg :=
  { cfg with runtest := some "test" }

/-- True when the string begins with the character slash
(Python str.startswith applied to a slash, as used by os.path.join). -/
def startsWithSlash (s : String) : Bool :=
  match s.data with
  | [] => false
  | c :: _ => c = '/'

/-- True when the string ends with the character slash
(Python str.endswith applied to a slash, as used by os.path.join). -/
def endsWithSlash (s : String) : Bool :=
  match s.data.reverse with
  | [] => false
  | c :: _ => c = '/'

/-- os.path.join for one extra component, following the POSIX
implementation: an absolute component replaces the path, otherwise a
separator is inserted unless the path is empty or already ends in one. -/
def osPathJoin (a b : String) : String :=
  if startsWithSlash b then b
  else if a = "" || endsWithSlash a then a ++ b
  else a ++ "/" ++ b

/-- os.path.join with two extra components. -/
def joinPath3 (a b c : String) : String :=
  osPathJoin (osPathJoin a b) c

/-- The lib_ext local computed by EB_SuperLU.install_step: the platform
shared-library extension (get_shared_lib_ext, a parameter here) when
build_shared_libs is set, the string a otherwise. -/
def installLibExt (sharedLibExt : String) (cfg : BuildCfg) : String :=
  if cfg.build_shared_libs then sharedLibExt else "a"

/-- The lib_ext local computed by EB_SuperLU.sanity_check_step (the same
conditional, written out a second time in the source). -/
def sanityLibExt (sharedLibExt : String) (cfg : BuildCfg) : String :=
  if cfg.build_shared_libs then sharedLibExt else "a"

/-- The expected_libpath local of install_step: the unsuffixed library
path under the installation directory. -/
def expectedLibPath (sharedLibExt installdir : String) (cfg : BuildCfg) : String :=
  joinPath3 installdir "lib" ("libsuperlu." ++ installLibExt sharedLibExt cfg)

/-- The actual_libpath local of install_step: the version-suffixed library
path the upstream build actually produces. -/
def actualLibPath (sharedLibExt installdir : String) (cfg : BuildCfg) : String :=
  joinPath3 installdir "lib" ("libsuperlu_" ++ cfg.version ++ "." ++ installLibExt sharedLibExt cfg)

/-- Result of the OS-level symlink call: success, or an OSError carrying
its description. -/
inductive OSResult where
  | ok : OSResult
  | error : String → OSResult
deriving DecidableEq

/-- The one error this easyblock raises itself (EasyBuildError in the
source): a descriptive message together with the underlying cause. -/
structure EasyBuildError where
  msg : String
  cause : String
deriving DecidableEq

/-- The filesystem as seen through os.path.exists. -/
structure FS where
  pathExists : String → Bool

/-- A filesystem action performed by the easyblock itself:
symlink source linkName records the call os.symlink(source, linkName). -/
inductive FSAction where
  | symlink : String → String → FSAction
deriving DecidableEq

/-- The error message built by install_step when the symlink call fails
(the source format string lacks the closing quote after the second path,
reproduced faithfully). -/
def symlinkErrMsg (expected actual : String) : String :=
  "Failed to create symlink \x27" ++ expected ++ "\x27 -> \x27" ++ actual

/-- EB_SuperLU.install_step after the delegated generic install step: the
symlink fix-up.  slk is the OS symlink call (os.symlink source linkName),
whose outcome depends on the OS state; on success the link path comes to
exist.  Returns the resulting filesystem and the list of filesystem
actions performed, or the raised EasyBuildError. -/
def install_step (sharedLibExt : String) (slk : String → String → OSResult)
    (installdir : String) (cfg : BuildCfg) (fs : FS) :
    Except EasyBuildError (FS × List FSAction) :=
  let expected_libpath := expectedLibPath sharedLibExt installdir cfg
  let actual_libpath := actualLibPath sharedLibExt installdir cfg
  if fs.pathExists expected_libpath then
    Except.ok (fs, [])
  else
    match slk actual_libpath expected_libpath with
    | OSResult.ok =>
        Except.ok
          ({ pathExists := fun p => p == expected_libpath || fs.pathExists p },
           [FSAction.symlink actual_libpath expected_libpath])
    | OSResult.error err =>
        Except.error
          { msg := symlinkErrMsg expected_libpath actual_libpath, cause := err }

/-- The custom_paths argument handed to the generic sanity check step. -/
structure SanityPaths where
  files : List String
  dirs : List String
deriving DecidableEq

/-- EB_SuperLU.sanity_check_step, up to the delegation: the custom_paths
it passes to the generic sanity check. -/
def sanity_check_step (sharedLibExt : String) (cfg : BuildCfg) : SanityPaths :=
  let lib_ext := sanityLibExt sharedLibExt cfg
  { files := ["include/supermatrix.h", "lib/libsuperlu." ++ lib_ext]
    dirs := [] }

/-- Modelled from the spec: the generic sanity-check step (supplied by the
host framework, not under src/) verifies the presence of each listed file
and each listed directory under the installation directory, and fails
exactly when one of them is absent. -/
def genericSanityCheck (fs : FS) (installdir : String) (paths : SanityPaths) : Bool :=
  paths.files.all (fun f => fs.pathExists (osPathJoin installdir f)) &&
  paths.dirs.all (fun d => fs.pathExists (osPathJoin installdir d))

/-- The five BLAS-selection configure options the easyblock can append. -/
def blasSelectionFlags : List String :=
  ["-DBLA_VENDOR=\"Intel10_64lp\"",
   "-DBLA_VENDOR=\"ACML\"",
   "-DBLA_VENDOR=\"ATLAS\"",
   "-DBLAS_LIBRARIES=\"$\x7bEBROOTOPENBLAS\x7d/lib/libopenblas.a;-pthread\"",
   "-DBLA_VENDOR=\"All\""]

/-- Written from the spec sentence for comparison with configure_step: the
BLAS flag chosen by first match in the fixed priority order imkl, ACML,
ATLAS, OpenBLAS, wildcard fallback. -/
def specBlasVendorChoice (env : Env) : String :=
  if (env.getSoftwareRoot "imkl").isSome then
    "-DBLA_VENDOR=\"Intel10_64lp\""
  else if (env.getSoftwareRoot "ACML").isSome then
    "-DBLA_VENDOR=\"ACML\""
  else if (env.getSoftwareRoot "ATLAS").isSome then
    "-DBLA_VENDOR=\"ATLAS\""
  else if (env.getSoftwareRoot "OpenBLAS").isSome then
    "-DBLAS_LIBRARIES=\"$\x7bEBROOTOPENBLAS\x7d/lib/libopenblas.a;-pthread\""
  else
    "-DBLA_VENDOR=\"All\""

/-- Helper: the exact configopts produced by configure_step. -/
theorem configure_step_configopts_eq (tc : Toolchain) (env : Env) (cfg : BuildCfg) :
    (configure_step tc env cfg).configopts =
      cfg.configopts ++
        [(if cfg.build_shared_libs then "-DBUILD_SHARED_LIBS=ON" else "-DBUILD_SHARED_LIBS=OFF"),
         (if tc.pic then "-DCMAKE_POSITION_INDEPENDENT_CODE=ON"
          else "-DCMAKE_POSITION_INDEPENDENT_CODE=OFF"),
         "-Denable_blaslib=OFF",
         specBlasVendorChoice env] := by
  cases hs : cfg.build_shared_libs <;> cases hp : tc.pic <;>
    cases h1 : (env.getSoftwareRoot "imkl").isSome <;>
    cases h2 : (env.getSoftwareRoot "ACML").isSome <;>
    cases h3 : (env.getSoftwareRoot "ATLAS").isSome <;>
    cases h4 : (env.getSoftwareRoot "OpenBLAS").isSome <;>
    simp [configure_step, specBlasVendorChoice, BuildCfg.updateConfigopts,
      hs, hp, h1, h2, h3, h4]

/-- Helper: the keys of the configuration other than separate_build_dir and
configopts are untouched by configure_step. -/
theorem configure_step_fields (tc : Toolchain) (env : Env) (cfg : BuildCfg) :
    (configure_step tc env cfg).build_shared_libs = cfg.build_shared_libs ∧
    (configure_step tc env cfg).version = cfg.version ∧
    (configure_step tc env cfg).runtest = cfg.runtest ∧
    (configure_step tc env cfg).rest = cfg.rest ∧
    (configure_step tc env cfg).separate_build_dir = true := by
  cases hs : cfg.build_shared_libs <;> cases hp : tc.pic <;>
    cases h1 : (env.getSoftwareRoot "imkl").isSome <;>
    cases h2 : (env.getSoftwareRoot "ACML").isSome <;>
    cases h3 : (env.getSoftwareRoot "ATLAS").isSome <;>
    cases h4 : (env.getSoftwareRoot "OpenBLAS").isSome <;>
    simp [configure_step, BuildCfg.updateConfigopts, hs, hp, h1, h2, h3, h4]

/-- Helper: the spec-side BLAS choice is one of the five selection flags. -/
theorem specBlasVendorChoice_mem (env : Env) :
    specBlasVendorChoice env ∈ blasSelectionFlags := by
  cases h1 : (env.getSoftwareRoot "imkl").isSome <;>
    cases h2 : (env.getSoftwareRoot "ACML").isSome <;>
    cases h3 : (env.getSoftwareRoot "ATLAS").isSome <;>
    cases h4 : (env.getSoftwareRoot "OpenBLAS").isSome <;>
    simp [specBlasVendorChoice, blasSelectionFlags, h1, h2, h3, h4]

/-- C1: configure_step appends exactly one BLAS-selection flag to
configopts, and the appended flag is the one chosen by first match in the
fixed priority order imkl, ACML, ATLAS, OpenBLAS (manual library path),
wildcard fallback, as written out in specBlasVendorChoice. -/
theorem configure_appends_unique_blas_flag_in_priority_order
    (tc : Toolchain) (env : Env) (cfg : BuildCfg) :
    ∃ pre b,
      (configure_step tc env cfg).configopts = cfg.configopts ++ pre ++ [b] ∧
      (∀ x ∈ pre, x ∉ blasSelectionFlags) ∧
      b ∈ blasSelectionFlags ∧
      b = specBlasVendorChoice env := by
  refine ⟨[(if cfg.build_shared_libs then "-DBUILD_SHARED_LIBS=ON"
            else "-DBUILD_SHARED_LIBS=OFF"),
           (if tc.pic then "-DCMAKE_POSITION_INDEPENDENT_CODE=ON"
            else "-DCMAKE_POSITION_INDEPENDENT_CODE=OFF"),
           "-Denable_blaslib=OFF"],
         specBlasVendorChoice env, ?_, ?_, specBlasVendorChoice_mem env, rfl⟩
  · rw [configure_step_configopts_eq]
    simp
  · intro x hx
    cases hs : cfg.build_shared_libs <;> cases hp : tc.pic <;>
      simp [hs, hp, blasSelectionFlags] at hx ⊢ <;>
      rcases hx with h | h | h <;> subst h <;> decide

/-- C4: the configure options appended by configure_step contain the
shared-build flag set ON (and not OFF) when build_shared_libs is true, and
set OFF (and not ON) when it is false; the single CMake BUILD_SHARED_LIBS
flag encodes the shared/static choice. -/
theorem shared_static_flag_matches_option
    (tc : Toolchain) (env : Env) (cfg : BuildCfg) :
    ∃ delta,
      (configure_step tc env cfg).configopts = cfg.configopts ++ delta ∧
      (if cfg.build_shared_libs then "-DBUILD_SHARED_LIBS=ON"
       else "-DBUILD_SHARED_LIBS=OFF") ∈ delta ∧
      (if cfg.build_shared_libs then "-DBUILD_SHARED_LIBS=OFF"
       else "-DBUILD_SHARED_LIBS=ON") ∉ delta := by
  refine ⟨_, configure_step_configopts_eq tc env cfg, ?_, ?_⟩
  · cases hs : cfg.build_shared_libs <;> simp [hs]
  · cases hs : cfg.build_shared_libs <;> cases hp : tc.pic <;>
      cases h1 : (env.getSoftwareRoot "imkl").isSome <;>
      cases h2 : (env.getSoftwareRoot "ACML").isSome <;>
      cases h3 : (env.getSoftwareRoot "ATLAS").isSome <;>
      cases h4 : (env.getSoftwareRoot "OpenBLAS").isSome <;>
      simp [specBlasVendorChoice, hs, hp, h1, h2, h3, h4]

/-- C7: configure_step appends the position-independent-code flag set ON
exactly when the toolchain pic option is set, and set OFF otherwise. -/
theorem pic_flag_mirrors_toolchain
    (tc : Toolchain) (env : Env) (cfg : BuildCfg) :
    ∃ delta,
      (configure_step tc env cfg).configopts = cfg.configopts ++ delta ∧
      (if tc.pic then "-DCMAKE_POSITION_INDEPENDENT_CODE=ON"
       else "-DCMAKE_POSITION_INDEPENDENT_CODE=OFF") ∈ delta ∧
      (if tc.pic then "-DCMAKE_POSITION_INDEPENDENT_CODE=OFF"
       else "-DCMAKE_POSITION_INDEPENDENT_CODE=ON") ∉ delta := by
  refine ⟨_, configure_step_configopts_eq tc env cfg, ?_, ?_⟩
  · cases hp : tc.pic <;> simp [hp]
  · cases hs : cfg.build_shared_libs <;> cases hp : tc.pic <;>
      cases h1 : (env.getSoftwareRoot "imkl").isSome <;>
      cases h2 : (env.getSoftwareRoot "ACML").isSome <;>
      cases h3 : (env.getSoftwareRoot "ATLAS").isSome <;>
      cases h4 : (env.getSoftwareRoot "OpenBLAS").isSome <;>
      simp [specBlasVendorChoice, hs, hp, h1, h2, h3, h4]

/-- C8: on every invocation, independent of options, toolchain and
environment probes, configure_step sets separate_build_dir to true and
appends -Denable_blaslib=OFF to configopts. -/
theorem forces_separate_build_dir_and_disables_blaslib
    (tc : Toolchain) (env : Env) (cfg : BuildCfg) :
    (configure_step tc env cfg).separate_build_dir = true ∧
    ∃ delta,
      (configure_step tc env cfg).configopts = cfg.configopts ++ delta ∧
      "-Denable_blaslib=OFF" ∈ delta := by
  refine ⟨(configure_step_fields tc env cfg).2.2.2.2,
          _, configure_step_configopts_eq tc env cfg, ?_⟩
  simp

/-- C10: configure_step modifies only the keys separate_build_dir and
configopts: build_shared_libs, version, runtest and every other key are
unchanged, and configopts grows by appending, preserving all previously
accumulated options as a prefix. -/
theorem configure_step_frame_effect
    (tc : Toolchain) (env : Env) (cfg : BuildCfg) :
    (configure_step tc env cfg).build_shared_libs = cfg.build_shared_libs ∧
    (configure_step tc env cfg).version = cfg.version ∧
    (configure_step tc env cfg).runtest = cfg.runtest ∧
    (configure_step tc env cfg).rest = cfg.rest ∧
    ∃ delta,
      (configure_step tc env cfg).configopts = cfg.configopts ++ delta := by
  obtain ⟨h1, h2, h3, h4, _⟩ := configure_step_fields tc env cfg
  exact ⟨h1, h2, h3, h4, _, configure_step_configopts_eq tc env cfg⟩

/-- C5: the library extension used by install_step (through the expected
and actual library paths) and by sanity_check_step (through its file list)
equals the platform shared-library extension when build_shared_libs is
set, and the string a otherwise. -/
theorem lib_ext_matches_shared_option
    (sharedLibExt installdir : String) (cfg : BuildCfg) :
    installLibExt sharedLibExt cfg
      = (if cfg.build_shared_libs then sharedLibExt else "a") ∧
    sanityLibExt sharedLibExt cfg
      = (if cfg.build_shared_libs then sharedLibExt else "a") ∧
    (sanity_check_step sharedLibExt cfg).files
      = ["include/supermatrix.h",
         "lib/libsuperlu." ++ (if cfg.build_shared_libs then sharedLibExt else "a")] ∧
    expectedLibPath sharedLibExt installdir cfg
      = joinPath3 installdir "lib"
          ("libsuperlu." ++ (if cfg.build_shared_libs then sharedLibExt else "a")) :=
  ⟨rfl, rfl, rfl, rfl⟩

/-- C2: install_step (after the delegated generic install step) creates
the symlink at the unsuffixed library path pointing to the
version-suffixed path exactly when the unsuffixed path does not already
exist; when it exists the filesystem is returned unchanged with no
action, and re-running install_step on the resulting filesystem always
performs no action. -/
theorem install_symlink_iff_missing
    (sharedLibExt installdir : String) (slk : String → String → OSResult)
    (cfg : BuildCfg) (fs : FS) :
    (fs.pathExists (expectedLibPath sharedLibExt installdir cfg) = true →
      install_step sharedLibExt slk installdir cfg fs = Except.ok (fs, [])) ∧
    (∀ fs2 acts,
      install_step sharedLibExt slk installdir cfg fs = Except.ok (fs2, acts) →
      (fs.pathExists (expectedLibPath sharedLibExt installdir cfg) = false ↔
        acts = [FSAction.symlink (actualLibPath sharedLibExt installdir cfg)
                  (expectedLibPath sharedLibExt installdir cfg)]) ∧
      (fs.pathExists (expectedLibPath sharedLibExt installdir cfg) = true →
        fs2 = fs) ∧
      install_step sharedLibExt slk installdir cfg fs2 = Except.ok (fs2, [])) := by
  constructor
  · intro h
    simp [install_step, h]
  · intro fs2 acts hok
    cases h : fs.pathExists (expectedLibPath sharedLibExt installdir cfg) with
    | false =>
        cases hk : slk (actualLibPath sharedLibExt installdir cfg)
            (expectedLibPath sharedLibExt installdir cfg) with
        | ok =>
            rw [install_step] at hok
            simp only [h, Bool.false_eq_true, if_false, hk, Except.ok.injEq,
              Prod.mk.injEq] at hok
            obtain ⟨hfs2, hacts⟩ := hok
            subst hfs2
            subst hacts
            refine ⟨by simp, by simp, ?_⟩
            simp [install_step]
        | error err =>
            rw [install_step] at hok
            simp [h, hk] at hok
    | true =>
        rw [install_step] at hok
        simp only [h, if_true, Except.ok.injEq, Prod.mk.injEq] at hok
        obtain ⟨hfs2, hacts⟩ := hok
        subst hfs2
        subst hacts
        refine ⟨by simp, fun _ => rfl, ?_⟩
        simp [install_step, h]

/-- C2 witness: with every path present, install_step is a no-op. -/
theorem install_symlink_iff_missing_witness :
    install_step "so" (fun _ _ => OSResult.ok) "/opt/superlu"
      ⟨false, [], false, "5.2.1", none, fun _ => none⟩ ⟨fun _ => true⟩
      = Except.ok (⟨fun _ => true⟩, []) :=
  (install_symlink_iff_missing "so" "/opt/superlu" (fun _ _ => OSResult.ok)
    ⟨false, [], false, "5.2.1", none, fun _ => none⟩ ⟨fun _ => true⟩).1 rfl

/-- C3: install_step raises the EasyBuildError carrying the descriptive
message and the underlying OS cause exactly when the unsuffixed path was
missing and the attempted symlink call failed; in every other case this
step succeeds, and it is the only place the easyblock raises an error
itself (the other hooks are total functions of the embedding). -/
theorem install_error_iff_symlink_fails
    (sharedLibExt installdir : String) (slk : String → String → OSResult)
    (cfg : BuildCfg) (fs : FS) :
    (∀ err,
      fs.pathExists (expectedLibPath sharedLibExt installdir cfg) = false →
      slk (actualLibPath sharedLibExt installdir cfg)
          (expectedLibPath sharedLibExt installdir cfg) = OSResult.error err →
      install_step sharedLibExt slk installdir cfg fs =
        Except.error
          { msg := symlinkErrMsg (expectedLibPath sharedLibExt installdir cfg)
                     (actualLibPath sharedLibExt installdir cfg),
            cause := err }) ∧
    (∀ e, install_step sharedLibExt slk installdir cfg fs = Except.error e →
      fs.pathExists (expectedLibPath sharedLibExt installdir cfg) = false ∧
      ∃ err,
        slk (actualLibPath sharedLibExt installdir cfg)
            (expectedLibPath sharedLibExt installdir cfg) = OSResult.error err ∧
        e = { msg := symlinkErrMsg (expectedLibPath sharedLibExt installdir cfg)
                       (actualLibPath sharedLibExt installdir cfg),
              cause := err }) := by
  constructor
  · intro err h hk
    simp [install_step, h, hk]
  · intro e he
    cases h : fs.pathExists (expectedLibPath sharedLibExt installdir cfg) with
    | false =>
        cases hk : slk (actualLibPath sharedLibExt installdir cfg)
            (expectedLibPath sharedLibExt installdir cfg) with
        | ok =>
            rw [install_step] at he
            simp [h, hk] at he
        | error err =>
            rw [install_step] at he
            simp only [h, Bool.false_eq_true, if_false, hk,
              Except.error.injEq] at he
            exact ⟨rfl, err, rfl, he.symm⟩
    | true =>
        rw [install_step] at he
        simp [h] at he

/-- C3 witness: a failing symlink call surfaces as the EasyBuildError with
the descriptive message and the OS cause. -/
theorem install_error_iff_symlink_fails_witness :
    install_step "so" (fun _ _ => OSResult.error "Permission denied")
      "/opt/superlu" ⟨false, [], false, "5.2.1", none, fun _ => none⟩
      ⟨fun _ => false⟩
      = Except.error
          { msg := symlinkErrMsg
              (expectedLibPath "so" "/opt/superlu"
                ⟨false, [], false, "5.2.1", none, fun _ => none⟩)
              (actualLibPath "so" "/opt/superlu"
                ⟨false, [], false, "5.2.1", none, fun _ => none⟩),
            cause := "Permission denied" } :=
  (install_error_iff_symlink_fails "so" "/opt/superlu"
    (fun _ _ => OSResult.error "Permission denied")
    ⟨false, [], false, "5.2.1", none, fun _ => none⟩
    ⟨fun _ => false⟩).1 "Permission denied" rfl rfl

/-- C6: sanity_check_step passes to the generic sanity check exactly the
header file and the unsuffixed library file with the extension matching
the shared/static option, and an empty directory list; the generic check
(modelled from the spec) succeeds exactly when both files exist. -/
theorem sanity_check_paths_and_outcome
    (sharedLibExt installdir : String) (cfg : BuildCfg) (fs : FS) :
    sanity_check_step sharedLibExt cfg
      = { files := ["include/supermatrix.h",
                    "lib/libsuperlu." ++ sanityLibExt sharedLibExt cfg],
          dirs := [] } ∧
    (genericSanityCheck fs installdir (sanity_check_step sharedLibExt cfg) = true ↔
      (fs.pathExists (osPathJoin installdir "include/supermatrix.h") = true ∧
       fs.pathExists
         (osPathJoin installdir
           ("lib/libsuperlu." ++ sanityLibExt sharedLibExt cfg)) = true)) := by
  refine ⟨rfl, ?_⟩
  simp [genericSanityCheck, sanity_check_step]

/-- Helper: a string starting with the literal lib/libsuperlu. does not
start with a slash. -/
theorem startsWithSlash_lib_slash_append (e : String) :
    startsWithSlash ("lib/libsuperlu." ++ e) = false := by
  have h : ("lib/libsuperlu." ++ e).data = 'l' :: ("ib/libsuperlu.".data ++ e.data) := by
    rw [String.data_append]
    rfl
  unfold startsWithSlash
  rw [h]
  rfl

/-- Helper: a string starting with the literal libsuperlu. does not start
with a slash. -/
theorem startsWithSlash_libsuperlu_append (e : String) :
    startsWithSlash ("libsuperlu." ++ e) = false := by
  have h : ("libsuperlu." ++ e).data = 'l' :: ("ibsuperlu.".data ++ e.data) := by
    rw [String.data_append]
    rfl
  unfold startsWithSlash
  rw [h]
  rfl

/-- Helper: a string ending with the literal lib does not end with a
slash. -/
theorem endsWithSlash_append_lib (x : String) :
    endsWithSlash (x ++ "lib") = false := by
  have h : (x ++ "lib").data.reverse = 'b' :: ('i' :: ('l' :: x.data.reverse)) := by
    rw [String.data_append, List.reverse_append]
    rfl
  unfold endsWithSlash
  rw [h]
  rfl

/-- Helper: a string ending with the literal lib is not empty. -/
theorem append_lib_ne_empty (x : String) : x ++ "lib" ≠ "" := by
  intro h
  have hd : x.data ++ ("lib" : String).data = [] := by
    rw [← String.data_append, h]
  rcases List.append_eq_nil.mp hd with ⟨-, h2⟩
  exact absurd h2 (by decide)

/-- Helper: splitting the relative library path at its separator. -/
theorem string_split_concat (y e : String) :
    y ++ ("lib/libsuperlu." ++ e) = ((y ++ "lib") ++ "/") ++ ("libsuperlu." ++ e) := by
  apply String.ext
  simp [String.data_append, List.append_assoc]

/-- Helper: joining the relative path lib/libsuperlu.ext onto a directory
in one os.path.join step equals joining lib and then libsuperlu.ext. -/
theorem osPathJoin_lib_split (d e : String) :
    osPathJoin d ("lib/libsuperlu." ++ e) = joinPath3 d "lib" ("libsuperlu." ++ e) := by
  have h1 := startsWithSlash_lib_slash_append e
  have h2 := startsWithSlash_libsuperlu_append e
  have h3 : startsWithSlash "lib" = false := rfl
  simp only [joinPath3, osPathJoin, h1, h2, h3, Bool.false_eq_true, if_false]
  by_cases hd : (decide (d = "") || endsWithSlash d) = true
  · rw [if_pos hd, if_pos hd]
    rw [if_neg ?_]
    · exact string_split_concat d e
    · simp [endsWithSlash_append_lib, append_lib_ne_empty]
  · rw [if_neg hd, if_neg hd]
    rw [if_neg ?_]
    · exact string_split_concat (d ++ "/") e
    · simp [endsWithSlash_append_lib, append_lib_ne_empty]

/-- C9: install_step and sanity_check_step compute the library extension
by the same rule, and the library path whose existence the generic sanity
check verifies (the installation directory joined with the listed library
file) is exactly the unsuffixed expected path that a successful
install_step guarantees to exist. -/
theorem sanity_checks_the_path_install_ensures
    (sharedLibExt installdir : String) (slk : String → String → OSResult)
    (cfg : BuildCfg) (fs : FS) :
    sanityLibExt sharedLibExt cfg = installLibExt sharedLibExt cfg ∧
    (sanity_check_step sharedLibExt cfg).files
      = ["include/supermatrix.h",
         "lib/libsuperlu." ++ installLibExt sharedLibExt cfg] ∧
    osPathJoin installdir ("lib/libsuperlu." ++ installLibExt sharedLibExt cfg)
      = expectedLibPath sharedLibExt installdir cfg ∧
    (∀ fs2 acts,
      install_step sharedLibExt slk installdir cfg fs = Except.ok (fs2, acts) →
      fs2.pathExists (expectedLibPath sharedLibExt installdir cfg) = true) := by
  refine ⟨rfl, rfl,
    osPathJoin_lib_split installdir (installLibExt sharedLibExt cfg), ?_⟩
  intro fs2 acts hok
  cases h : fs.pathExists (expectedLibPath sharedLibExt installdir cfg) with
  | false =>
      cases hk : slk (actualLibPath sharedLibExt installdir cfg)
          (expectedLibPath sharedLibExt installdir cfg) with
      | ok =>
          rw [install_step] at hok
          simp only [h, Bool.false_eq_true, if_false, hk, Except.ok.injEq,
            Prod.mk.injEq] at hok
          obtain ⟨hfs2, -⟩ := hok
          subst hfs2
          simp
      | error err =>
          rw [install_step] at hok
          simp [h, hk] at hok
  | true =>
      rw [install_step] at hok
      simp only [h, if_true, Except.ok.injEq, Prod.mk.injEq] at hok
      obtain ⟨hfs2, -⟩ := hok
      subst hfs2
      exact h

/-- C9 witness: concrete instantiation after a successful install. -/
theorem sanity_checks_the_path_install_ensures_witness :
    (FS.mk (fun _ => true)).pathExists
      (expectedLibPath "so" "/tmp/slu"
        ⟨false, [], false, "5.2.1", none, fun _ => none⟩) = true :=
  (sanity_checks_the_path_install_ensures "so" "/tmp/slu"
    (fun _ _ => OSResult.ok) ⟨false, [], false, "5.2.1", none, fun _ => none⟩
    ⟨fun _ => true⟩).2.2.2 ⟨fun _ => true⟩ [] rfl

/-- C1 witness: concrete instantiation with no math library present. -/
theorem configure_appends_unique_blas_flag_witness :
    ∃ pre b,
      (configure_step ⟨true⟩ ⟨fun _ => none⟩
        ⟨false, [], false, "5.2.1", none, fun _ => none⟩).configopts
        = ([] : List String) ++ pre ++ [b] ∧
      (∀ x ∈ pre, x ∉ blasSelectionFlags) ∧
      b ∈ blasSelectionFlags ∧
      b = specBlasVendorChoice ⟨fun _ => none⟩ :=
  configure_appends_unique_blas_flag_in_priority_order ⟨true⟩ ⟨fun _ => none⟩
    ⟨false, [], false, "5.2.1", none, fun _ => none⟩

/-- C4 witness: concrete instantiation with build_shared_libs set. -/
theorem shared_static_flag_matches_option_witness :
    ∃ delta,
      (configure_step ⟨false⟩ ⟨fun _ => none⟩
        ⟨false, [], true, "5.2.1", none, fun _ => none⟩).configopts
        = ([] : List String) ++ delta ∧
      "-DBUILD_SHARED_LIBS=ON" ∈ delta ∧
      "-DBUILD_SHARED_LIBS=OFF" ∉ delta :=
  shared_static_flag_matches_option ⟨false⟩ ⟨fun _ => none⟩
    ⟨false, [], true, "5.2.1", none, fun _ => none⟩

/-- C7 witness: concrete instantiation with the pic option set. -/
theorem pic_flag_mirrors_toolchain_witness :
    ∃ delta,
      (configure_step ⟨true⟩ ⟨fun _ => none⟩
        ⟨false, [], false, "5.2.2", none, fun _ => none⟩).configopts
        = ([] : List String) ++ delta ∧
      "-DCMAKE_POSITION_INDEPENDENT_CODE=ON" ∈ delta ∧
      "-DCMAKE_POSITION_INDEPENDENT_CODE=OFF" ∉ delta :=
  pic_flag_mirrors_toolchain ⟨true⟩ ⟨fun _ => none⟩
    ⟨false, [], false, "5.2.2", none, fun _ => none⟩

/-- C8 witness: concrete instantiation. -/
theorem forces_separate_build_dir_witness :
    (configure_step ⟨false⟩ ⟨fun _ => some "/sw/imkl"⟩
      ⟨false, ["-DX=1"], false, "5.2.1", none, fun _ => none⟩).separate_build_dir
      = true ∧
    ∃ delta,
      (configure_step ⟨false⟩ ⟨fun _ => some "/sw/imkl"⟩
        ⟨false, ["-DX=1"], false, "5.2.1", none, fun _ => none⟩).configopts
        = ["-DX=1"] ++ delta ∧
      "-Denable_blaslib=OFF" ∈ delta :=
  forces_separate_build_dir_and_disables_blaslib ⟨false⟩ ⟨fun _ => some "/sw/imkl"⟩
    ⟨false, ["-DX=1"], false, "5.2.1", none, fun _ => none⟩

/-- C10 witness: concrete instantiation. -/
theorem configure_step_frame_effect_witness :
    (configure_step ⟨true⟩ ⟨fun _ => some "/sw/ACML"⟩
      ⟨false, ["-DY=2"], true, "4.3", some "t", fun _ => some "v"⟩).build_shared_libs
      = true ∧
    (configure_step ⟨true⟩ ⟨fun _ => some "/sw/ACML"⟩
      ⟨false, ["-DY=2"], true, "4.3", some "t", fun _ => some "v"⟩).version = "4.3" ∧
    (configure_step ⟨true⟩ ⟨fun _ => some "/sw/ACML"⟩
      ⟨false, ["-DY=2"], true, "4.3", some "t", fun _ => some "v"⟩).runtest = some "t" ∧
    (configure_step ⟨true⟩ ⟨fun _ => some "/sw/ACML"⟩
      ⟨false, ["-DY=2"], true, "4.3", some "t", fun _ => some "v"⟩).rest
      = (fun _ => some "v") ∧
    ∃ delta,
      (configure_step ⟨true⟩ ⟨fun _ => some "/sw/ACML"⟩
        ⟨false, ["-DY=2"], true, "4.3", some "t", fun _ => some "v"⟩).configopts
        = ["-DY=2"] ++ delta :=
  configure_step_frame_effect ⟨true⟩ ⟨fun _ => some "/sw/ACML"⟩
    ⟨false, ["-DY=2"], true, "4.3", some "t", fun _ => some "v"⟩

/-- C5 witness: concrete instantiation with a static build. -/
theorem lib_ext_matches_shared_option_witness :
    installLibExt "so" ⟨false, [], false, "5.2.1", none, fun _ => none⟩ = "a" ∧
    sanityLibExt "so" ⟨false, [], false, "5.2.1", none, fun _ => none⟩ = "a" ∧
    (sanity_check_step "so"
      ⟨false, [], false, "5.2.1", none, fun _ => none⟩).files
      = ["include/supermatrix.h", "lib/libsuperlu." ++ "a"] ∧
    expectedLibPath "so" "/opt/x"
      ⟨false, [], false, "5.2.1", none, fun _ => none⟩
      = joinPath3 "/opt/x" "lib" ("libsuperlu." ++ "a") :=
  lib_ext_matches_shared_option "so" "/opt/x"
    ⟨false, [], false, "5.2.1", none, fun _ => none⟩

/-- C6 witness: concrete instantiation with both files present. -/
theorem sanity_check_paths_and_outcome_witness :
    sanity_check_step "so" ⟨false, [], true, "5.2.1", none, fun _ => none⟩
      = { files := ["include/supermatrix.h", "lib/libsuperlu." ++ "so"],
          dirs := [] } ∧
    (genericSanityCheck ⟨fun _ => true⟩ "/opt/y"
      (sanity_check_step "so" ⟨false, [], true, "5.2.1", none, fun _ => none⟩) = true ↔
      ((FS.mk (fun _ => true)).pathExists
        (osPathJoin "/opt/y" "include/supermatrix.h") = true ∧
       (FS.mk (fun _ => true)).pathExists
        (osPathJoin "/opt/y" ("lib/libsuperlu." ++ "so")) = true)) :=
  sanity_check_paths_and_outcome "so" "/opt/y"
    ⟨false, [], true, "5.2.1", none, fun _ => none⟩ ⟨fun _ => true⟩

end SuperLU
